import Mathlib

set_option maxRecDepth 10000

/-!
Shallow embedding of the JIPLAK_PROMPT single-page application core:
the Nano Banana edit-history store (src/components/NanoBanana.tsx),
the prompt-assembly pipeline (src/App.tsx), the PIN access gate
(src/App.tsx) and the Gemini service response processing
(src/services/geminiService.ts).  JavaScript strings are modelled as
Lean strings, JavaScript numbers on the relevant integer ranges as
Nat / Int, nullable values as Option, and thrown exceptions as Except.
-/

namespace Jiplak

/-! ## String helpers -/

/-- Whitespace characters removed by the JavaScript String.prototype.trim
method (ASCII whitespace plus no-break space and BOM; the remaining
Unicode space separators are irrelevant to the strings this app builds). -/
def isJsWs (c : Char) : Bool :=
  c = ' ' || c = '\t' || c = '\n' || c = '\r' || c = '\x0b' || c = '\x0c' ||
  c = ' ' || c = '﻿'

/-- Model of JavaScript String.prototype.trim: drop whitespace from both
ends of the string. -/
def jsTrim (s : String) : String :=
  ⟨(s.data.dropWhile isJsWs).rdropWhile isJsWs⟩

/-- Model of trimming only the right end of a string (used to phrase
side conditions about appended suffixes). -/
def jsTrimRight (s : String) : String :=
  ⟨s.data.rdropWhile isJsWs⟩

/-- JavaScript truthiness of a string-or-undefined value: present and
not the empty string. -/
def jsTruthyStr : Option String → Bool
  | none => false
  | some s => s ≠ ""

/-- Model of JavaScript String.prototype.includes. -/
def jsIncludes (s sub : String) : Bool :=
  decide (sub.data <:+: s.data)

/-- Model of JavaScript String.prototype.toLowerCase on the ASCII range. -/
def jsToLower (s : String) : String :=
  ⟨s.data.map Char.toLower⟩

/-! ## Edit History Store (src/components/NanoBanana.tsx) -/

/-- Kind tag of a Nano Banana generation result part. -/
inductive ResKind where
  | text
  | image
deriving DecidableEq, Repr

/-- One result part returned by the Nano Banana edit feature
(geminiService.ts, interface NanoResult). -/
structure NanoResult where
  kind : ResKind
  content : String
deriving DecidableEq, Repr

/-- One history snapshot: the list of result parts of one generation. -/
abbrev Snapshot := List NanoResult

/-- The undo/redo state of the Nano Banana component: the `history` array
and the `historyIndex` cursor (NanoBanana.tsx lines 18 to 19).  The cursor
is a JavaScript number that starts at -1, hence an Int. -/
structure HistoryState where
  history : List Snapshot
  historyIndex : Int
deriving DecidableEq, Repr

/-- The initial history state: empty history, cursor -1. -/
def initH : HistoryState := ⟨[], -1⟩

/-- Model of JavaScript Array.prototype.slice(0, e): a negative end index
counts from the end of the array and is clamped at 0. -/
def jsSliceTo (l : List α) (e : Int) : List α :=
  if e < 0 then l.take ((l.length : Int) + e).toNat else l.take e.toNat

/-- The push performed by handleSubmit on success (NanoBanana.tsx lines
86 to 88): keep the slice up to the cursor, append the new snapshot, and
move the cursor to the new last index. -/
def pushHistory (s : HistoryState) (snap : Snapshot) : HistoryState :=
  let newHistory := jsSliceTo s.history (s.historyIndex + 1) ++ [snap]
  ⟨newHistory, (newHistory.length : Int) - 1⟩

/-- handleUndo (NanoBanana.tsx lines 106 to 110): decrement the cursor
when canUndo, that is when historyIndex > 0. -/
def undoH (s : HistoryState) : HistoryState :=
  if s.historyIndex > 0 then ⟨s.history, s.historyIndex - 1⟩ else s

/-- handleRedo (NanoBanana.tsx lines 112 to 116): increment the cursor
when canRedo, that is when historyIndex < history.length - 1. -/
def redoH (s : HistoryState) : HistoryState :=
  if s.historyIndex < (s.history.length : Int) - 1 then ⟨s.history, s.historyIndex + 1⟩ else s

/-- currentResults (NanoBanana.tsx line 21): history[historyIndex] ?? [].
A negative or out-of-range index reads undefined, giving []. -/
def currentH (s : HistoryState) : Snapshot :=
  (if s.historyIndex < 0 then none else s.history.get? s.historyIndex.toNat).getD []

/-- An operation on the history store. -/
inductive HistOp where
  | push (snap : Snapshot)
  | undo
  | redo
deriving DecidableEq, Repr

/-- Apply one history operation. -/
def applyOp (s : HistoryState) : HistOp → HistoryState
  | .push snap => pushHistory s snap
  | .undo => undoH s
  | .redo => redoH s

/-- Run a sequence of history operations from a starting state. -/
def runOps (s : HistoryState) : List HistOp → HistoryState
  | [] => s
  | op :: ops => runOps (applyOp s op) ops

/-- The invariant of reachable history states: either the history is empty
with cursor -1, or the cursor indexes into the history. -/
def InvH (s : HistoryState) : Prop :=
  (s.history = [] ∧ s.historyIndex = -1) ∨
  (0 ≤ s.historyIndex ∧ s.historyIndex < (s.history.length : Int))

instance (s : HistoryState) : Decidable (InvH s) := by
  unfold InvH; infer_instance

/-- A one-element text snapshot used for concrete runs. -/
def mkSnap (s : String) : Snapshot := [⟨.text, s⟩]

/-! ## Prompt Assembly (src/App.tsx, finalPrompt useEffect lines 152 to 180) -/

/-- The inputs of the finalPrompt useEffect (the effect dependency list at
App.tsx line 180).  detailedPrompt is string-or-null state, hence Option. -/
structure PromptContext where
  detailedPrompt : Option String
  subjectCount : Int
  aspectRatio : String
  originalAspectRatio : Option String
  useFaceReference : Bool
  useSeparateReferences : Bool
deriving DecidableEq, Repr

/-- The fixed single-subject face-preservation clause (App.tsx line 167),
without the leading space of the template. -/
def singleSubjectClause : String :=
  "(Do not change facial details from the description; use the provided reference photo to accurately transfer the subject's face and hair, maintaining realistic skin texture and a photorealistic quality)."

/-- The multi-subject face-preservation clause (App.tsx lines 161 to 165),
whose middle wording depends on useSeparateReferences. -/
def multiSubjectClause (useSeparateReferences : Bool) : String :=
  let faceRefInstruction :=
    if useSeparateReferences then
      "use a separate face reference for each corresponding person"
    else
      "use the provided reference photos for each person"
  "The final image must perfectly replicate the described scene, including the exact poses, body language, interactions, and relative positions of all subjects. (Do not change facial details; " ++ faceRefInstruction ++ ", ensuring their facial features and hair are accurately transferred while maintaining a photorealistic and cohesive look)."

/-- The currentPrompt computed at App.tsx lines 158 to 169: the description
with the applicable face-preservation clause appended. -/
def bodyPrompt (ctx : PromptContext) (d : String) : String :=
  if ctx.useFaceReference then
    if ctx.subjectCount > 1 then
      d ++ " " ++ multiSubjectClause ctx.useSeparateReferences
    else
      d ++ " " ++ singleSubjectClause
  else d

/-- The currentAr resolution at App.tsx line 171:
aspectRatio === 'Original' ? originalAspectRatio : aspectRatio. -/
def resolveAr (ctx : PromptContext) : Option String :=
  if ctx.aspectRatio = "Original" then ctx.originalAspectRatio else some ctx.aspectRatio

/-- The finalPrompt computed by the useEffect at App.tsx lines 152 to 180.
A null or empty (JavaScript-falsy) detailedPrompt short-circuits to "";
the aspect directive is appended when currentAr is truthy and not the
literal string Original, and the result is trimmed. -/
def computeFinalPrompt (ctx : PromptContext) : String :=
  match ctx.detailedPrompt with
  | none => ""
  | some d =>
    if d = "" then ""
    else
      let currentPrompt := bodyPrompt ctx d
      match resolveAr ctx with
      | some ar =>
        if ar ≠ "" ∧ ar ≠ "Original" then jsTrim (currentPrompt ++ " --ar " ++ ar)
        else jsTrim currentPrompt
      | none => jsTrim currentPrompt

/-- The aspect directive as a standalone suffix, for stating properties:
the exact string the effect appends before trimming, or "" when no
directive applies. -/
def arDirective (ctx : PromptContext) : String :=
  match resolveAr ctx with
  | some ar => if ar ≠ "" ∧ ar ≠ "Original" then " --ar " ++ ar else ""
  | none => ""

/-! ## Aspect-ratio reduction (src/App.tsx, gcd line 35 and
handleImageUpload lines 126 to 131) -/

/-- The gcd helper (App.tsx line 35): gcd(a, b) = b === 0 ? a : gcd(b, a % b). -/
def jsGcd (a b : Nat) : Nat :=
  if b = 0 then a else jsGcd b (a % b)
termination_by b
decreasing_by exact Nat.mod_lt _ (Nat.pos_of_ne_zero (by assumption))

/-- The aspect-ratio string computed in the image onload handler
(App.tsx lines 127 to 128). -/
def reduceRatio (w h : Nat) : String :=
  let commonDivisor := jsGcd w h
  toString (w / commonDivisor) ++ ":" ++ toString (h / commonDivisor)

/-! ## Access Gate (src/App.tsx, handlePinSubmit lines 71 to 90,
handleLogout lines 37 to 41) -/

/-- The AuthStatus union type (App.tsx line 12). -/
inductive AuthStatus where
  | unauthenticated
  | limited
  | full
deriving DecidableEq, Repr

/-- The Tab union type (App.tsx line 11). -/
inductive Tab where
  | jiplak
  | nano
deriving DecidableEq, Repr

/-- The authentication-related state of the App component together with
the session storage entries and the multiset of pending handleLogout
timers (fire times in epoch milliseconds). -/
structure AuthState where
  authStatus : AuthStatus
  pinError : Option String
  storedStatus : Option String
  storedExpiry : Option Nat
  timers : List Nat
  activeTab : Tab
deriving DecidableEq, Repr

/-- The initial state: unauthenticated, empty session storage, no timers. -/
def initAuth : AuthState :=
  ⟨.unauthenticated, none, none, none, [], .jiplak⟩

/-- handleLogout (App.tsx lines 37 to 41): clear the two session storage
keys and set the status to unauthenticated.  It does not touch any timer. -/
def handleLogout (s : AuthState) : AuthState :=
  { s with storedStatus := none, storedExpiry := none, authStatus := .unauthenticated }

/-- The error message reported on a wrong PIN (App.tsx line 88). -/
def invalidPinMsg : String := "Invalid PIN. Please try again."

/-- handlePinSubmit (App.tsx lines 71 to 90), given the current clock
reading in milliseconds.  PIN 69 grants limited access, stores an expiry
15 minutes ahead and schedules a handleLogout timer at that time; PIN 24
grants full access with no expiry; any other PIN only sets pinError. -/
def handlePinSubmit (now : Nat) (pin : String) (s : AuthState) : AuthState :=
  if pin = "69" then
    let expiry := now + 15 * 60 * 1000
    { s with storedStatus := some "limited", storedExpiry := some expiry,
             authStatus := .limited, activeTab := .jiplak, pinError := none,
             timers := s.timers ++ [expiry] }
  else if pin = "24" then
    { s with storedStatus := some "full", storedExpiry := none,
             authStatus := .full, pinError := none }
  else
    { s with pinError := some invalidPinMsg }

/-- An event of the access-gate event loop: a PIN submission, a manual
logout click, or a pending timer reaching its fire time. -/
inductive AuthEvent where
  | pinSubmit (now : Nat) (pin : String)
  | logout
  | timerFire (t : Nat)
deriving DecidableEq, Repr

/-- One step of the access-gate event loop.  A timer that fires runs
handleLogout (the callback installed at App.tsx line 79) and is consumed. -/
def authStep (s : AuthState) : AuthEvent → AuthState
  | .pinSubmit now pin => handlePinSubmit now pin s
  | .logout => handleLogout s
  | .timerFire t => if t ∈ s.timers then handleLogout { s with timers := s.timers.erase t } else s

/-- Run a sequence of access-gate events. -/
def runAuth (s : AuthState) : List AuthEvent → AuthState
  | [] => s
  | e :: es => runAuth (authStep s e) es

/-! ## Gemini service (src/services/geminiService.ts) and the Nano Banana
submit handler (src/components/NanoBanana.tsx lines 59 to 104) -/

/-- The inlineData field of a provider response part. -/
structure InlineData where
  data : String
  mimeType : String
deriving DecidableEq, Repr

/-- One content part of the provider response, as consumed at
geminiService.ts lines 143 to 150: an optional text and an optional
inline image payload. -/
structure RespPart where
  text : Option String
  inlineData : Option InlineData
deriving DecidableEq, Repr

/-- The error message thrown when the provider returns zero content parts
(geminiService.ts line 139). -/
def blockedMsg : String :=
  "The model did not return any content. The request may have been blocked."

/-- Conversion of one response part into a NanoResult (geminiService.ts
lines 143 to 150): a truthy text part becomes a text result, else a part
with truthy inline data and mime type becomes a data-URI image result,
else the part is skipped. -/
def partToResult (p : RespPart) : Option NanoResult :=
  if jsTruthyStr p.text then
    some ⟨.text, p.text.getD ""⟩
  else
    match p.inlineData with
    | some idata =>
      if idata.data ≠ "" ∧ idata.mimeType ≠ "" then
        some ⟨.image, "data:" ++ idata.mimeType ++ ";base64," ++ idata.data⟩
      else none
    | none => none

/-- The response processing of generateWithNanoBanana (geminiService.ts
lines 137 to 151): zero parts throws the blocked/empty error, otherwise
the parts are converted in order. -/
def processNanoResponse (parts : List RespPart) : Except String (List NanoResult) :=
  if parts.isEmpty then .error blockedMsg
  else .ok (parts.filterMap partToResult)

/-- generateWithNanoBanana as a function of the raw provider outcome:
either a transport-level failure (whose message the catch block at
geminiService.ts lines 154 to 158 rethrows unchanged) or the list
candidates[0].content.parts (already defaulted to [] by the code). -/
def generateWithNanoBanana (resp : Except String (List RespPart)) :
    Except String (List NanoResult) :=
  match resp with
  | .ok parts => processNanoResponse parts
  | .error e => .error e

/-- The resolution suffix map of handleSubmit (NanoBanana.tsx lines
75 to 79). -/
def resolutionTextMap : String → Option String
  | "HD" => some "HD, 1080p, high quality"
  | "4K" => some "4K resolution, photorealistic, ultra-detailed"
  | "8K" => some "8K resolution, masterpiece, photorealistic, ultra-detailed"
  | _ => none

/-- The prompt actually sent by handleSubmit (NanoBanana.tsx lines
73 to 83): the trimmed prompt, with a resolution suffix appended when the
selected resolution is not Default and has a map entry. -/
def nanoFinalPrompt (prompt resolution : String) : String :=
  let promptText := jsTrim prompt
  if resolution ≠ "Default" then
    match resolutionTextMap resolution with
    | some rt => promptText ++ ", " ++ rt
    | none => promptText
  else promptText

/-- The quota-exhaustion message shown for provider quota errors
(NanoBanana.tsx line 96). -/
def quotaMsg : String :=
  "Anda telah melebihi batas penggunaan gratis untuk fitur ini. Silakan coba lagi nanti atau periksa paket dan tagihan Anda di Google AI Studio."

/-- The error remapping of the catch block (NanoBanana.tsx lines 92 to 97). -/
def friendlyError (raw : String) : String :=
  if jsIncludes raw "RESOURCE_EXHAUSTED" || jsIncludes (jsToLower raw) "quota" then quotaMsg
  else raw

/-- The state of the NanoBanana component that handleSubmit touches. -/
structure NanoState where
  filesCount : Nat
  prompt : String
  resolution : String
  error : Option String
  hist : HistoryState
deriving Repr

/-- handleSubmit (NanoBanana.tsx lines 59 to 104) with the provider call
abstracted as a function from the sent prompt to the raw outcome.  The
two validation guards return early without touching state; a successful
generation pushes onto the history; a failure records the (possibly
remapped) message and leaves the history untouched. -/
def handleSubmit (s : NanoState) (provider : String → Except String (List RespPart)) :
    NanoState :=
  if s.filesCount = 0 then s
  else if jsTrim s.prompt = "" then s
  else
    let finalP := nanoFinalPrompt s.prompt s.resolution
    match generateWithNanoBanana (provider finalP) with
    | .ok results => { s with error := none, hist := pushHistory s.hist results }
    | .error raw => { s with error := some (friendlyError raw) }

/-! ## Helper lemmas -/

theorem string_data_append (s t : String) : (s ++ t).data = s.data ++ t.data := rfl

theorem string_ne_empty_iff (s : String) : s ≠ "" ↔ s.data ≠ [] := by
  cases s with
  | mk d =>
    have h : ((⟨d⟩ : String) = "") ↔ d = [] := by
      constructor
      · intro h; exact congrArg String.data h
      · intro h; rw [h]
    exact not_congr h

theorem dropWhile_append_of_head {p : Char → Bool} {l : List Char} (m : List Char)
    (hne : l ≠ []) (hl : l.dropWhile p = l) :
    (l ++ m).dropWhile p = l ++ m := by
  cases l with
  | nil => exact absurd rfl hne
  | cons a t =>
    have ha : ¬ p a := by
      have := List.dropWhile_eq_self_iff.mp hl
      simpa using this (by simp)
    simp [List.dropWhile_cons, ha]

theorem rdropWhile_append_of_last {p : Char → Bool} {l : List Char} (m : List Char)
    (hne : l ≠ []) (hl : l.rdropWhile p = l) :
    (m ++ l).rdropWhile p = m ++ l := by
  rw [List.rdropWhile_eq_self_iff]
  intro hml
  have hlast : (m ++ l).getLast hml = l.getLast hne := List.getLast_append' m l hne
  rw [hlast]
  exact List.rdropWhile_eq_self_iff.mp hl hne

/-- If trimming a character list from both ends returns it unchanged, then
each one-sided trim already returns it unchanged. -/
theorem trim_parts {l : List Char} (h : (l.dropWhile isJsWs).rdropWhile isJsWs = l) :
    l.dropWhile isJsWs = l ∧ l.rdropWhile isJsWs = l := by
  have hs : l.dropWhile isJsWs <:+ l := List.dropWhile_suffix _
  have hp : (l.dropWhile isJsWs).rdropWhile isJsWs <+: l.dropWhile isJsWs :=
    List.rdropWhile_prefix _ _
  have len1 : (l.dropWhile isJsWs).length ≤ l.length := hs.sublist.length_le
  have len2 : ((l.dropWhile isJsWs).rdropWhile isJsWs).length ≤ (l.dropWhile isJsWs).length :=
    hp.sublist.length_le
  have hlen : ((l.dropWhile isJsWs).rdropWhile isJsWs).length = l.length := by rw [h]
  have hd : l.dropWhile isJsWs = l := hs.sublist.eq_of_length (by omega)
  refine ⟨hd, ?_⟩
  rwa [hd] at h

/-- Appending a right-trimmed suffix to a nonempty fully-trimmed string
gives a string that trimming leaves unchanged. -/
theorem jsTrim_append_self {d r : String} (hd : d ≠ "") (h1 : jsTrim d = d)
    (h2 : jsTrimRight r = r) : jsTrim (d ++ r) = d ++ r := by
  have hdl : d.data ≠ [] := (string_ne_empty_iff d).mp hd
  have h1l : (d.data.dropWhile isJsWs).rdropWhile isJsWs = d.data := by
    have := congrArg String.data h1
    simpa [jsTrim] using this
  have h2l : r.data.rdropWhile isJsWs = r.data := by
    have := congrArg String.data h2
    simpa [jsTrimRight] using this
  obtain ⟨hdrop, hrdrop⟩ := trim_parts h1l
  show (⟨((d ++ r).data.dropWhile isJsWs).rdropWhile isJsWs⟩ : String) = d ++ r
  rw [string_data_append]
  rw [dropWhile_append_of_head r.data hdl hdrop]
  by_cases hr : r.data = []
  · rw [hr, List.append_nil, hrdrop, ← List.append_nil d.data, ← hr, ← string_data_append]
  · rw [rdropWhile_append_of_last d.data hr h2l, ← string_data_append]

theorem invH_init : InvH initH := by
  left; exact ⟨rfl, rfl⟩

theorem invH_push (s : HistoryState) (snap : Snapshot) : InvH (pushHistory s snap) := by
  right
  unfold pushHistory
  simp only [List.length_append, List.length_cons, List.length_nil]
  constructor <;> omega

theorem invH_undo {s : HistoryState} (h : InvH s) : InvH (undoH s) := by
  unfold undoH
  rcases h with ⟨h1, h2⟩ | ⟨h1, h2⟩
  · rw [if_neg (by omega)]; left; exact ⟨h1, h2⟩
  · by_cases hc : s.historyIndex > 0
    · rw [if_pos hc]; right; constructor <;> simp <;> omega
    · rw [if_neg hc]; right; exact ⟨h1, h2⟩

theorem invH_redo {s : HistoryState} (h : InvH s) : InvH (redoH s) := by
  unfold redoH
  rcases h with ⟨h1, h2⟩ | ⟨h1, h2⟩
  · rw [if_neg (by simp [h1]; omega)]; left; exact ⟨h1, h2⟩
  · by_cases hc : s.historyIndex < (s.history.length : Int) - 1
    · rw [if_pos hc]; right; constructor <;> simp <;> omega
    · rw [if_neg hc]; right; exact ⟨h1, h2⟩

theorem invH_applyOp {s : HistoryState} (h : InvH s) (op : HistOp) : InvH (applyOp s op) := by
  cases op with
  | push snap => exact invH_push s snap
  | undo => exact invH_undo h
  | redo => exact invH_redo h

theorem invH_runOps {s : HistoryState} (h : InvH s) (ops : List HistOp) :
    InvH (runOps s ops) := by
  induction ops generalizing s with
  | nil => exact h
  | cons op ops ih => exact ih (invH_applyOp h op)

theorem currentH_of_inv {s : HistoryState} (h : InvH s) (hne : s.history ≠ []) :
    s.history.get? s.historyIndex.toNat = some (currentH s) := by
  rcases h with ⟨h1, _⟩ | ⟨h1, h2⟩
  · exact absurd h1 hne
  · have hlt : s.historyIndex.toNat < s.history.length := by omega
    unfold currentH
    rw [if_neg (by omega)]
    rw [List.get?_eq_get hlt]
    rfl

/-- The final prompt is the trim of the body prompt followed by the
aspect directive suffix. -/
theorem computeFinalPrompt_eq_trim (ctx : PromptContext) (d : String)
    (hd : ctx.detailedPrompt = some d) (hne : d ≠ "") :
    computeFinalPrompt ctx = jsTrim (bodyPrompt ctx d ++ arDirective ctx) := by
  unfold computeFinalPrompt arDirective
  rw [hd]
  simp only [if_neg hne]
  cases har : resolveAr ctx with
  | none => simp
  | some ar =>
    by_cases hc : ar ≠ "" ∧ ar ≠ "Original"
    · simp only [if_pos hc]
      have h2 : bodyPrompt ctx d ++ " --ar " ++ ar = bodyPrompt ctx d ++ (" --ar " ++ ar) := by
        rw [String.append_assoc]
      rw [h2]
    · simp only [if_neg hc]
      rw [String.append_empty]

theorem jsGcd_eq_gcd (a b : Nat) : jsGcd a b = Nat.gcd a b := by
  induction b using Nat.strong_induction_on generalizing a with
  | _ b ih =>
    unfold jsGcd
    by_cases hb : b = 0
    · rw [if_pos hb, hb, Nat.gcd_zero_right]
    · rw [if_neg hb, ih (a % b) (Nat.mod_lt _ (Nat.pos_of_ne_zero hb)) b]
      rw [Nat.gcd_comm b (a % b), ← Nat.gcd_rec b a, Nat.gcd_comm]

/-! ## Claims -/

/-- Claim C1: for every history state (with the cursor at least -1, as in
every reachable state) and every new snapshot, push keeps exactly the
snapshots up to the cursor, appends the new snapshot, and sets the cursor
to the last index; in particular the run push(A), push(B), push(C),
undo(), undo(), push(D) leaves the history equal to [A, D] with cursor 1. -/
theorem claim_C1 :
    (∀ (s : HistoryState) (snap : Snapshot), -1 ≤ s.historyIndex →
      (pushHistory s snap).history = s.history.take (s.historyIndex + 1).toNat ++ [snap] ∧
      (pushHistory s snap).historyIndex = ((pushHistory s snap).history.length : Int) - 1) ∧
    runOps initH [.push (mkSnap "A"), .push (mkSnap "B"), .push (mkSnap "C"), .undo, .undo,
      .push (mkSnap "D")] = ⟨[mkSnap "A", mkSnap "D"], 1⟩ := by
  constructor
  · intro s snap hge
    constructor
    · simp only [pushHistory, jsSliceTo]
      rw [if_neg (by omega)]
    · rfl
  · decide

/-- Witness for claim C1 at a concrete state and snapshot. -/
theorem claim_C1_witness :
    (pushHistory ⟨[mkSnap "A"], 0⟩ (mkSnap "B")).history =
      ([mkSnap "A"] : List Snapshot).take ((0 : Int) + 1).toNat ++ [mkSnap "B"] ∧
    (pushHistory ⟨[mkSnap "A"], 0⟩ (mkSnap "B")).historyIndex =
      ((pushHistory ⟨[mkSnap "A"], 0⟩ (mkSnap "B")).history.length : Int) - 1 :=
  claim_C1.1 ⟨[mkSnap "A"], 0⟩ (mkSnap "B") (by decide)

/-- Claim C2 counterexample: after the empty prefix the history is empty and
the cursor is -1, which is not within [0, length - 1] (that interval holds
no integer when the history is empty). -/
theorem claim_C2_counterexample :
    (runOps initH []).history = [] ∧ (runOps initH []).historyIndex = -1 ∧
    ¬ (0 ≤ (runOps initH []).historyIndex ∧
       (runOps initH []).historyIndex ≤ ((runOps initH []).history.length : Int) - 1) := by
  refine ⟨rfl, rfl, ?_⟩
  decide

/-- Claim C2 (amended): after any prefix of push/undo/redo operations from
the initial state, if the history is empty the cursor is -1 and current()
is the empty sequence; if the history is nonempty the cursor is within
[0, length - 1] and current() equals the snapshot stored at the cursor. -/
theorem claim_C2 (ops : List HistOp) :
    ((runOps initH ops).history = [] →
      (runOps initH ops).historyIndex = -1 ∧ currentH (runOps initH ops) = []) ∧
    ((runOps initH ops).history ≠ [] →
      0 ≤ (runOps initH ops).historyIndex ∧
      (runOps initH ops).historyIndex ≤ ((runOps initH ops).history.length : Int) - 1 ∧
      (runOps initH ops).history.get? (runOps initH ops).historyIndex.toNat =
        some (currentH (runOps initH ops))) := by
  have hinv := invH_runOps invH_init ops
  constructor
  · intro hemp
    rcases hinv with ⟨h1, h2⟩ | ⟨h1, h2⟩
    · refine ⟨h2, ?_⟩
      unfold currentH
      rw [if_pos (by omega)]
      rfl
    · exfalso
      rw [hemp] at h2
      simp only [List.length_nil, Nat.cast_zero] at h2
      omega
  · intro hne
    rcases hinv with ⟨h1, h2⟩ | ⟨h1, h2⟩
    · exact absurd h1 hne
    · exact ⟨h1, by omega, currentH_of_inv (Or.inr ⟨h1, h2⟩) hne⟩

/-- Witness for claim C2 at the prefix [push A]. -/
theorem claim_C2_witness :
    0 ≤ (runOps initH [HistOp.push (mkSnap "A")]).historyIndex ∧
    (runOps initH [HistOp.push (mkSnap "A")]).historyIndex ≤
      ((runOps initH [HistOp.push (mkSnap "A")]).history.length : Int) - 1 ∧
    (runOps initH [HistOp.push (mkSnap "A")]).history.get?
        (runOps initH [HistOp.push (mkSnap "A")]).historyIndex.toNat =
      some (currentH (runOps initH [HistOp.push (mkSnap "A")])) :=
  (claim_C2 [HistOp.push (mkSnap "A")]).2 (by decide)

/-- Claim C10: undo and redo leave the snapshot list unchanged; each moves
the cursor by at most one, and both preserve the state invariant (cursor
within bounds for a nonempty history). -/
theorem claim_C10 (s : HistoryState) :
    (undoH s).history = s.history ∧ (redoH s).history = s.history ∧
    ((undoH s).historyIndex = s.historyIndex ∨
      (undoH s).historyIndex = s.historyIndex - 1) ∧
    ((redoH s).historyIndex = s.historyIndex ∨
      (redoH s).historyIndex = s.historyIndex + 1) ∧
    (InvH s → InvH (undoH s) ∧ InvH (redoH s)) := by
  refine ⟨?_, ?_, ?_, ?_, fun h => ⟨invH_undo h, invH_redo h⟩⟩
  · unfold undoH; split <;> rfl
  · unfold redoH; split <;> rfl
  · unfold undoH; split
    · right; rfl
    · left; rfl
  · unfold redoH; split
    · right; rfl
    · left; rfl

/-- Witness for claim C10 at a concrete valid state. -/
theorem claim_C10_witness :
    InvH (undoH ⟨[mkSnap "A"], 0⟩) ∧ InvH (redoH ⟨[mkSnap "A"], 0⟩) :=
  (claim_C10 ⟨[mkSnap "A"], 0⟩).2.2.2.2 (by decide)

/-- Claim C3: whenever useFaceReference is true and subjectCount is at most 1
the fixed single-subject clause is appended to the description, and the
context with description X, subjectCount 1, useFaceReference true and
aspectRatio 16:9 assembles to exactly "X <single-subject clause> --ar 16:9"
(for any originalAspectRatio and useSeparateReferences). -/
theorem claim_C3 :
    (∀ (ctx : PromptContext) (d : String), ctx.useFaceReference = true →
      ctx.subjectCount ≤ 1 → bodyPrompt ctx d = d ++ " " ++ singleSubjectClause) ∧
    (∀ (orig : Option String) (sep : Bool),
      computeFinalPrompt ⟨some "X", 1, "16:9", orig, true, sep⟩ =
        "X " ++ singleSubjectClause ++ " --ar 16:9") := by
  constructor
  · intro ctx d hface hcount
    simp only [bodyPrompt, hface, reduceIte]
    rw [if_neg (by omega)]
  · intro orig sep
    rw [computeFinalPrompt_eq_trim _ "X" rfl (by decide)]
    simp only [bodyPrompt, arDirective, resolveAr, reduceIte]
    rw [if_neg (by decide : ¬ ((1 : Int) > 1)),
        if_neg (by decide : ¬ (("16:9" : String) = "Original"))]
    decide

/-- Witness for claim C3 at a concrete context. -/
theorem claim_C3_witness :
    bodyPrompt ⟨some "X", 1, "16:9", none, true, true⟩ "X" =
      "X" ++ " " ++ singleSubjectClause ∧
    computeFinalPrompt ⟨some "X", 1, "16:9", none, true, true⟩ =
      "X " ++ singleSubjectClause ++ " --ar 16:9" :=
  ⟨claim_C3.1 ⟨some "X", 1, "16:9", none, true, true⟩ "X" rfl (by decide),
   claim_C3.2 none true⟩

/-- Claim C4 counterexample: with useFaceReference false and description
" X" (leading space, no aspect directive) the assembled prompt is the
trimmed "X", not the description verbatim. -/
theorem claim_C4_counterexample :
    computeFinalPrompt ⟨some " X", 0, "Original", none, false, true⟩ = "X" ∧
    ("X" : String) ≠ " X" := by
  constructor <;> decide

/-- Claim C4 (amended): with useFaceReference false and a nonempty
description, the assembled prompt is the description with only the
aspect-ratio directive appended and the whole string trimmed of leading
and trailing whitespace — no face-preservation clause of any kind; it is
the description verbatim plus the directive whenever the description is
already trimmed and the directive carries no trailing whitespace. -/
theorem claim_C4 (ctx : PromptContext) (d : String) (hface : ctx.useFaceReference = false)
    (hd : ctx.detailedPrompt = some d) (hne : d ≠ "") :
    computeFinalPrompt ctx = jsTrim (d ++ arDirective ctx) ∧
    (jsTrim d = d → jsTrimRight (arDirective ctx) = arDirective ctx →
      computeFinalPrompt ctx = d ++ arDirective ctx) := by
  have hb : bodyPrompt ctx d = d := by
    simp only [bodyPrompt, hface]
    simp
  have h1 : computeFinalPrompt ctx = jsTrim (d ++ arDirective ctx) := by
    rw [computeFinalPrompt_eq_trim ctx d hd hne, hb]
  exact ⟨h1, fun ht hr => by rw [h1]; exact jsTrim_append_self hne ht hr⟩

/-- Witness for claim C4 at a concrete context. -/
theorem claim_C4_witness :
    computeFinalPrompt ⟨some "hello", 0, "16:9", none, false, true⟩ =
      "hello" ++ arDirective ⟨some "hello", 0, "16:9", none, false, true⟩ :=
  (claim_C4 ⟨some "hello", 0, "16:9", none, false, true⟩ "hello" rfl rfl (by decide)).2
    (by decide) (by decide)

/-- Claim C5: the aspect-ratio directive is resolved as originalAspectRatio
when aspectRatio is "Original" and as aspectRatio otherwise; the assembled
prompt is the body with the directive suffix appended (then trimmed); the
suffix is " --ar {value}" exactly when the resolved value is present
(non-null and nonempty, i.e. JavaScript-truthy) and is not the literal
string "Original", and is empty otherwise. -/
theorem claim_C5 (ctx : PromptContext) (d : String) (hd : ctx.detailedPrompt = some d)
    (hne : d ≠ "") :
    resolveAr ctx = (if ctx.aspectRatio = "Original" then ctx.originalAspectRatio
      else some ctx.aspectRatio) ∧
    computeFinalPrompt ctx = jsTrim (bodyPrompt ctx d ++ arDirective ctx) ∧
    (∀ v, resolveAr ctx = some v → v ≠ "" → v ≠ "Original" →
      arDirective ctx = " --ar " ++ v) ∧
    ((resolveAr ctx = none ∨ resolveAr ctx = some "" ∨ resolveAr ctx = some "Original") →
      arDirective ctx = "") := by
  refine ⟨rfl, computeFinalPrompt_eq_trim ctx d hd hne, ?_, ?_⟩
  · intro v hv h1 h2
    have h3 : arDirective ctx = if v ≠ "" ∧ v ≠ "Original" then " --ar " ++ v else "" := by
      unfold arDirective
      rw [hv]
    rw [h3, if_pos ⟨h1, h2⟩]
  · intro hv
    rcases hv with hv | hv | hv
    · unfold arDirective
      rw [hv]
    · have h3 : arDirective ctx =
          if ("" : String) ≠ "" ∧ ("" : String) ≠ "Original" then " --ar " ++ "" else "" := by
        unfold arDirective
        rw [hv]
      rw [h3, if_neg (by simp)]
    · have h3 : arDirective ctx =
          if ("Original" : String) ≠ "" ∧ ("Original" : String) ≠ "Original" then
            " --ar " ++ "Original" else "" := by
        unfold arDirective
        rw [hv]
      rw [h3, if_neg (by simp)]

/-- Witness for claim C5 at a concrete context whose aspectRatio is
"Original" with an uploaded 4:5 image. -/
theorem claim_C5_witness :
    arDirective ⟨some "Y", 0, "Original", some "4:5", true, true⟩ = " --ar " ++ "4:5" :=
  ((claim_C5 ⟨some "Y", 0, "Original", some "4:5", true, true⟩ "Y" rfl (by decide)).2.2.1)
    "4:5" (by decide) (by decide) (by decide)

/-- Claim C6: the aspect-ratio helper reduces width:height by their
greatest common divisor (the recursive helper agrees with the Euclidean
gcd), so for positive dimensions the two printed numbers are coprime; in
particular reduce(1920, 1080) = "16:9", reduce(500, 500) = "1:1", and
every pair of equal positive dimensions gives "1:1". -/
theorem claim_C6 :
    (∀ a b, jsGcd a b = Nat.gcd a b) ∧
    (∀ w h, 0 < w → 0 < h →
      Nat.Coprime (w / jsGcd w h) (h / jsGcd w h) ∧
      reduceRatio w h = toString (w / Nat.gcd w h) ++ ":" ++ toString (h / Nat.gcd w h)) ∧
    reduceRatio 1920 1080 = "16:9" ∧ reduceRatio 500 500 = "1:1" ∧
    (∀ w, 0 < w → reduceRatio w w = "1:1") := by
  have hr : ∀ w h, reduceRatio w h =
      toString (w / Nat.gcd w h) ++ ":" ++ toString (h / Nat.gcd w h) := by
    intro w h
    simp only [reduceRatio]
    rw [jsGcd_eq_gcd]
  refine ⟨jsGcd_eq_gcd, ?_, ?_, ?_, ?_⟩
  · intro w h hw _
    refine ⟨?_, hr w h⟩
    rw [jsGcd_eq_gcd]
    exact Nat.coprime_div_gcd_div_gcd (Nat.gcd_pos_of_pos_left _ hw)
  · rw [hr]
    decide
  · rw [hr]
    decide
  · intro w hw
    rw [hr, Nat.gcd_self, Nat.div_self hw]
    decide

/-- Witness for claim C6 at concrete positive dimensions. -/
theorem claim_C6_witness :
    Nat.Coprime (1920 / jsGcd 1920 1080) (1080 / jsGcd 1920 1080) ∧
    reduceRatio 1920 1080 =
      toString (1920 / Nat.gcd 1920 1080) ++ ":" ++ toString (1080 / Nat.gcd 1920 1080) :=
  claim_C6.2.1 1920 1080 (by decide) (by decide)

/-- Claim C7: from the unauthenticated state, PIN 69 grants limited access
with a stored expiry exactly 15 minutes (900000 ms) from now, PIN 24
grants full access with no stored expiry, and any other PIN leaves the
status unauthenticated with the invalid-PIN error reported. -/
theorem claim_C7 (now : Nat) (s : AuthState) (hu : s.authStatus = .unauthenticated) :
    ((handlePinSubmit now "69" s).authStatus = .limited ∧
      (handlePinSubmit now "69" s).storedExpiry = some (now + 15 * 60 * 1000)) ∧
    ((handlePinSubmit now "24" s).authStatus = .full ∧
      (handlePinSubmit now "24" s).storedExpiry = none) ∧
    (∀ pin, pin ≠ "69" → pin ≠ "24" →
      (handlePinSubmit now pin s).authStatus = .unauthenticated ∧
      (handlePinSubmit now pin s).pinError = some invalidPinMsg) := by
  refine ⟨⟨rfl, rfl⟩, ⟨rfl, rfl⟩, ?_⟩
  intro pin h69 h24
  unfold handlePinSubmit
  rw [if_neg h69, if_neg h24]
  exact ⟨hu, rfl⟩

/-- Witness for claim C7 at a concrete wrong PIN. -/
theorem claim_C7_witness :
    (handlePinSubmit 0 "00" initAuth).authStatus = .unauthenticated ∧
    (handlePinSubmit 0 "00" initAuth).pinError = some invalidPinMsg :=
  (claim_C7 0 initAuth rfl).2.2 "00" (by decide) (by decide)

/-- Claim C8 counterexample: the expiry timer scheduled by PIN 69 is still
pending after a manual logout, and after a subsequent full login it fires
and logs that full session out — so the timer is not cancelled on manual
logout and does fire against later state. -/
theorem claim_C8_counterexample :
    (runAuth initAuth [.pinSubmit 0 "69", .logout]).timers = [15 * 60 * 1000] ∧
    (runAuth initAuth [.pinSubmit 0 "69", .logout, .pinSubmit 1 "24"]).authStatus = .full ∧
    (runAuth initAuth [.pinSubmit 0 "69", .logout, .pinSubmit 1 "24",
      .timerFire (15 * 60 * 1000)]).authStatus = .unauthenticated := by
  refine ⟨?_, ?_, ?_⟩ <;> decide

/-- Claim C8 (amended): manual logout does not cancel any pending session
timer — handleLogout leaves the timer list untouched — and any pending
timer that later fires runs handleLogout against whatever state is then
active, forcing it to unauthenticated. -/
theorem claim_C8 :
    (∀ s : AuthState, (authStep s .logout).timers = s.timers ∧
      (handleLogout s).timers = s.timers) ∧
    (∀ (s : AuthState) (t : Nat), t ∈ s.timers →
      (authStep s (.timerFire t)).authStatus = .unauthenticated) := by
  constructor
  · intro s
    exact ⟨rfl, rfl⟩
  · intro s t ht
    simp only [authStep]
    rw [if_pos ht]
    rfl

/-- Witness for claim C8: a pending timer fires against a full session. -/
theorem claim_C8_witness :
    (authStep ⟨.full, none, some "full", none, [5], .jiplak⟩ (.timerFire 5)).authStatus =
      .unauthenticated :=
  claim_C8.2 ⟨.full, none, some "full", none, [5], .jiplak⟩ 5 (by decide)

/-- Claim C9: a provider response with zero content parts makes the edit
call fail with the blocked/empty generation error, and the failed
submission leaves the edit-history store completely unchanged. -/
theorem claim_C9 (s : NanoState) (provider : String → Except String (List RespPart))
    (hf : s.filesCount ≠ 0) (hp : jsTrim s.prompt ≠ "")
    (hresp : provider (nanoFinalPrompt s.prompt s.resolution) = .ok []) :
    generateWithNanoBanana (.ok ([] : List RespPart)) = .error blockedMsg ∧
    (handleSubmit s provider).hist = s.hist ∧
    (handleSubmit s provider).error = some blockedMsg := by
  refine ⟨rfl, ?_, ?_⟩
  · simp only [handleSubmit]
    rw [if_neg hf, if_neg hp, hresp]
    rfl
  · simp only [handleSubmit]
    rw [if_neg hf, if_neg hp, hresp]
    show some (friendlyError blockedMsg) = some blockedMsg
    rw [(by decide : friendlyError blockedMsg = blockedMsg)]

/-- Witness for claim C9 at a concrete submission whose provider returns
zero parts. -/
theorem claim_C9_witness :
    (handleSubmit ⟨1, "edit", "Default", none, initH⟩ (fun _ => .ok [])).hist = initH ∧
    (handleSubmit ⟨1, "edit", "Default", none, initH⟩ (fun _ => .ok [])).error =
      some blockedMsg :=
  ⟨(claim_C9 ⟨1, "edit", "Default", none, initH⟩ (fun _ => .ok []) (by decide) (by decide)
      rfl).2.1,
   (claim_C9 ⟨1, "edit", "Default", none, initH⟩ (fun _ => .ok []) (by decide) (by decide)
      rfl).2.2⟩

end Jiplak
